import Mathlib

/-!
Shallow embedding of `streamlit_app.py` (WhoisJSON API Explorer).

The embedded core is the API client helpers `whois_lookup`, `nslookup`,
`ssl_cert_check` (lines 28-58) and the batch orchestration loop with its
success/failure summary (lines 229-259).  The HTTP transport
(`requests.get` together with response parsing) is abstracted as a
function from a request to a transport result; `response.raise_for_status`
raises `HTTPError` exactly for status codes in `[400, 600)` (the
documented behaviour of the `requests` library), and `response.json()`
either yields a JSON value or raises a decode error (an ordinary
`Exception`).
-/

namespace WhoisApp

/-- JSON values, as returned by `response.json()` and stored in the batch
results dictionary. -/
inductive Json where
  | null : Json
  | bool (b : Bool) : Json
  | num (n : Int) : Json
  | str (s : String) : Json
  | arr (elems : List Json) : Json
  | obj (fields : List (String × Json)) : Json
  deriving Repr

/-- An outbound HTTP GET request: URL, query parameters and headers, in the
order the source builds them. -/
structure Request where
  url : String
  params : List (String × String)
  headers : List (String × String)
  deriving Repr, DecidableEq

/-- Outcome of `response.json()`: a parsed value, or a decode failure with
the exception's message. -/
inductive BodyParse where
  | ok (j : Json) : BodyParse
  | fail (msg : String) : BodyParse

/-- What the transport (`requests.get`) produces for one request: a response
with status code, body text and parse outcome, or a transport-level
exception (connection error, timeout, ...) with its stringified message. -/
inductive TransportResult where
  | resp (status : Nat) (text : String) (body : BodyParse) : TransportResult
  | netErr (msg : String) : TransportResult

/-- The exceptions the app distinguishes: `requests.exceptions.HTTPError`
(carrying `e.response.status_code` and `e.response.text`), and every other
`Exception` reduced to `str(e)`. -/
inductive PyErr where
  | httpError (status : Nat) (text : String) : PyErr
  | other (msg : String) : PyErr
  deriving Repr, DecidableEq

/-- Models `requests.get(...)` followed by `response.raise_for_status()` and
`response.json()`: a transport failure raises an ordinary exception;
`raise_for_status` raises `HTTPError` iff the status is in `[400, 600)`;
otherwise the parsed JSON body is returned (or its decode error raised). -/
def httpGetJson (http : Request → TransportResult) (req : Request) :
    Except PyErr Json :=
  match http req with
  | .netErr msg => .error (.other msg)
  | .resp status text body =>
      if 400 ≤ status ∧ status < 600 then .error (.httpError status text)
      else
        match body with
        | .ok j => .ok j
        | .fail msg => .error (.other msg)

/-- The request built by `whois_lookup` (lines 28-34). -/
def whoisRequest (domain api_key : String) : Request :=
  { url := "https://whoisjson.com/api/v1/whois"
    params := [("domain", domain)]
    headers := [("Authorization", "Token=" ++ api_key)] }

/-- The request built by `nslookup` (lines 38-44): `params["type"]` is set
only when `record_type` is truthy (not `None`, not `""`) and differs from
`"All Records"`. -/
def nslookupRequest (domain api_key : String) (record_type : Option String) :
    Request :=
  { url := "https://whoisjson.com/api/v1/nslookup"
    params := [("domain", domain)] ++
      (match record_type with
       | some rt => if rt ≠ "" ∧ rt ≠ "All Records" then [("type", rt)] else []
       | none => [])
    headers := [("Authorization", "Token=" ++ api_key)] }

/-- The request built by `ssl_cert_check` (lines 50-56). -/
def sslRequest (domain api_key : String) : Request :=
  { url := "https://whoisjson.com/api/v1/ssl"
    params := [("domain", domain)]
    headers := [("Authorization", "Token=" ++ api_key)] }

/-- Source function `whois_lookup(domain, api_key)` (lines 28-36). -/
def whois_lookup (http : Request → TransportResult) (domain api_key : String) :
    Except PyErr Json :=
  httpGetJson http (whoisRequest domain api_key)

/-- Source function `nslookup(domain, api_key, record_type=None)`
(lines 38-48); the Python default argument is passed explicitly here. -/
def nslookup (http : Request → TransportResult) (domain api_key : String)
    (record_type : Option String) : Except PyErr Json :=
  httpGetJson http (nslookupRequest domain api_key record_type)

/-- Source function `ssl_cert_check(domain, api_key)` (lines 50-58). -/
def ssl_cert_check (http : Request → TransportResult) (domain api_key : String) :
    Except PyErr Json :=
  httpGetJson http (sslRequest domain api_key)

/-- The `if/elif` dispatch of the batch loop body (lines 235-240): which
client call one iteration performs.  `none` means no branch matched, so no
client invocation happens (the real selectbox only offers the three
operation names below). -/
def clientCall (http : Request → TransportResult) (api_key op domain : String) :
    Option (Except PyErr Json) :=
  if op = "WHOIS Lookup" then some (whois_lookup http domain api_key)
  else if op = "DNS Lookup" then some (nslookup http domain api_key none)
  else if op = "SSL Certificate Check" then some (ssl_cert_check http domain api_key)
  else none

/-- The request one batch iteration issues for a domain, by operation name
(the request-building part of `clientCall`). -/
def requestOf (api_key op domain : String) : Option Request :=
  if op = "WHOIS Lookup" then some (whoisRequest domain api_key)
  else if op = "DNS Lookup" then some (nslookupRequest domain api_key none)
  else if op = "SSL Certificate Check" then some (sslRequest domain api_key)
  else none

/-- The dictionary value recorded for a caught exception: lines 247 and 251
of the source, `{"error": f"HTTP {code}: {text}"}` for an `HTTPError` and
`{"error": str(e)}` for anything else. -/
def errorValue : PyErr → Json
  | .httpError status text =>
      .obj [("error", .str ("HTTP " ++ toString status ++ ": " ++ text))]
  | .other msg => .obj [("error", .str msg)]

/-- Python dict assignment `d[k] = v` on an insertion-ordered dictionary
represented as an association list with unique keys: an existing key keeps
its position and gets the new value; a new key is appended. -/
def dictInsert (d : List (String × Json)) (k : String) (v : Json) :
    List (String × Json) :=
  if k ∈ d.map Prod.fst then
    d.map (fun kv => if kv.1 = k then (k, v) else kv)
  else d ++ [(k, v)]

/-- The value one batch iteration stores into `results[domain]`:
the success payload, or `errorValue` of the caught exception; `none` when
no operation branch matched (no assignment at all). -/
def visitOutcome (http : Request → TransportResult) (api_key op domain : String) :
    Option Json :=
  match clientCall http api_key op domain with
  | none => none
  | some (.ok j) => some j
  | some (.error e) => some (errorValue e)

/-- One iteration of the batch loop body (lines 234-251): try the selected
client call; on success store the payload, on exception store the error
record; either way the loop continues. -/
def batchStep (http : Request → TransportResult) (api_key op : String)
    (results : List (String × Json)) (domain : String) : List (String × Json) :=
  match clientCall http api_key op domain with
  | none => results
  | some (.ok j) => dictInsert results domain j
  | some (.error e) => dictInsert results domain (errorValue e)

/-- The batch loop `for idx, domain in enumerate(domains)` (lines 233-253),
threading the visit index so the abstract transport may answer each
invocation differently. -/
def runBatchLoop (http : Nat → Request → TransportResult) (api_key op : String) :
    List String → Nat → List (String × Json) → List (String × Json)
  | [], _, results => results
  | d :: ds, idx, results =>
      runBatchLoop http api_key op ds (idx + 1)
        (batchStep (http idx) api_key op results d)

/-- The whole batch run starting from the empty `results = {}` (line 229). -/
def runBatch (http : Nat → Request → TransportResult) (api_key op : String)
    (domains : List String) : List (String × Json) :=
  runBatchLoop http api_key op domains 0 []

/-- The sequence of HTTP requests the batch issues, in visit order: one per
list element whose operation branch matches (lines 233-240). -/
def batchTrace (api_key op : String) (domains : List String) : List Request :=
  domains.filterMap (fun d => requestOf api_key op d)

/-- Whether `needle` occurs as a contiguous sublist of the second list. -/
def hasSublist (needle : List Char) : List Char → Bool
  | [] => needle.isEmpty
  | c :: rest => needle.isPrefixOf (c :: rest) || hasSublist needle rest

/-- Python's membership test `"error" in r` (line 258): key membership for a
dict, element equality for a list, substring for a string; a `TypeError`
(modelled as `none`) for every other JSON value. -/
def pyInError : Json → Option Bool
  | .obj fields => some (fields.any (fun kv => kv.1 = "error"))
  | .arr elems =>
      some (elems.any (fun x => match x with | .str s => s = "error" | _ => false))
  | .str s => some (hasSublist "error".toList s.toList)
  | _ => none

/-- One step of `sum(1 for r in results.values() if "error" not in r)`:
count a value when the membership test is `false`; a raised `TypeError`
(`none`) aborts the whole sum. -/
def countAcc : Option Nat → Json → Option Nat
  | none, _ => none
  | some a, v =>
      match pyInError v with
      | none => none
      | some true => some a
      | some false => some (a + 1)

/-- Line 258 of the source,
`successful = sum(1 for r in results.values() if "error" not in r)`. -/
def successfulCount (results : List (String × Json)) : Option Nat :=
  results.foldl (fun acc kv => countAcc acc kv.2) (some 0)

/-- The displayed summary (lines 258-259): `successful` as above and
`failed = len(domains) - successful` (Python integer subtraction). -/
def batchSummary (http : Nat → Request → TransportResult) (api_key op : String)
    (domains : List String) : Option (Int × Int) :=
  match successfulCount (runBatch http api_key op domains) with
  | none => none
  | some s => some ((s : Int), (domains.length : Int) - (s : Int))

/-- First-occurrence deduplication: the key order a Python dict built by the
batch loop ends up with. -/
def dedupFirst (l : List String) : List String :=
  l.foldl (fun ks d => if d ∈ ks then ks else ks ++ [d]) []

/-- The three operation names offered by the batch selectbox (line 213). -/
def batchOps : List String :=
  ["WHOIS Lookup", "DNS Lookup", "SSL Certificate Check"]

/-! Concrete transports used to evaluate the model on specific scenarios. -/

/-- A transport on which every request yields HTTP 200 with a fixed payload
carrying no top-level `error` key. -/
def httpOk : Nat → Request → TransportResult :=
  fun _ _ => .resp 200 "" (.ok (Json.obj [("registrar", Json.str "Acme")]))

/-- A transport on which every request yields HTTP 503 with body text
`unavailable`. -/
def http503 : Nat → Request → TransportResult :=
  fun _ _ => .resp 503 "unavailable" (.ok Json.null)

/-- A transport returning a bare 304 response (not followed by a redirect,
as for `304 Not Modified`). -/
def http304 : Request → TransportResult :=
  fun _ => .resp 304 "redirect" (.ok Json.null)

/-- A transport returning HTTP 404 with body text `not found`. -/
def http404 : Request → TransportResult :=
  fun _ => .resp 404 "not found" (.ok Json.null)

/-- A transport on which every request succeeds (HTTP 200) but the JSON
payload itself carries a top-level `error` key. -/
def httpSoftFail : Nat → Request → TransportResult :=
  fun _ _ => .resp 200 "" (.ok (Json.obj [("error", Json.str "soft fail")]))

/-! Helper lemmas about the embedded operations. -/

theorem clientCall_eq_requestOf (http : Request → TransportResult)
    (api_key op domain : String) :
    clientCall http api_key op domain =
      (requestOf api_key op domain).map (httpGetJson http) := by
  unfold clientCall requestOf
  split_ifs <;> rfl

theorem requestOf_eq_some (api_key op domain : String) (hop : op ∈ batchOps) :
    ∃ req, requestOf api_key op domain = some req := by
  simp only [batchOps, List.mem_cons, List.not_mem_nil, or_false] at hop
  rcases hop with rfl | rfl | rfl <;> exact ⟨_, rfl⟩

theorem visitOutcome_eq_some (http : Request → TransportResult)
    (api_key op domain : String) (hop : op ∈ batchOps) :
    ∃ v, visitOutcome http api_key op domain = some v := by
  obtain ⟨req, hreq⟩ := requestOf_eq_some api_key op domain hop
  unfold visitOutcome
  rw [clientCall_eq_requestOf, hreq, Option.map_some']
  cases httpGetJson http req <;> exact ⟨_, rfl⟩

theorem batchStep_eq_visitOutcome (http : Request → TransportResult)
    (api_key op : String) (results : List (String × Json)) (domain : String) :
    batchStep http api_key op results domain =
      match visitOutcome http api_key op domain with
      | none => results
      | some v => dictInsert results domain v := by
  unfold batchStep visitOutcome
  cases clientCall http api_key op domain with
  | none => rfl
  | some r => cases r <;> rfl

theorem runBatchLoop_append (http : Nat → Request → TransportResult)
    (api_key op : String) (D1 D2 : List String) (idx : Nat)
    (results : List (String × Json)) :
    runBatchLoop http api_key op (D1 ++ D2) idx results =
      runBatchLoop http api_key op D2 (idx + D1.length)
        (runBatchLoop http api_key op D1 idx results) := by
  induction D1 generalizing idx results with
  | nil => simp [runBatchLoop]
  | cons d ds ih =>
      simp only [List.cons_append, runBatchLoop, List.length_cons, List.append_eq]
      rw [ih]
      have h : idx + 1 + ds.length = idx + (ds.length + 1) := by omega
      rw [h]

theorem keys_dictInsert (r : List (String × Json)) (k : String) (v : Json) :
    (dictInsert r k v).map Prod.fst =
      if k ∈ r.map Prod.fst then r.map Prod.fst else r.map Prod.fst ++ [k] := by
  unfold dictInsert
  by_cases h : k ∈ r.map Prod.fst
  · rw [if_pos h, if_pos h, List.map_map]
    refine List.map_congr_left ?_
    intro kv _
    by_cases hk : kv.1 = k
    · simp [Function.comp, hk]
    · simp [Function.comp, hk]
  · rw [if_neg h, if_neg h]
    simp

theorem dictInsert_not_mem (r : List (String × Json)) (k : String) (v : Json)
    (h : k ∉ r.map Prod.fst) : dictInsert r k v = r ++ [(k, v)] := by
  unfold dictInsert
  rw [if_neg h]

theorem mem_dictInsert (r : List (String × Json)) (k : String) (v : Json)
    (kv : String × Json) (h : kv ∈ dictInsert r k v) : kv ∈ r ∨ kv = (k, v) := by
  unfold dictInsert at h
  split_ifs at h with hm
  · rcases List.mem_map.1 h with ⟨kv', hkv', rfl⟩
    by_cases hk : kv'.1 = k
    · right; simp [hk]
    · left; simpa [hk] using hkv'
  · rcases List.mem_append.1 h with h | h
    · exact Or.inl h
    · right; simpa using h

theorem keys_runBatchLoop (http : Nat → Request → TransportResult)
    (api_key op : String) (hop : op ∈ batchOps) :
    ∀ (D : List String) (idx : Nat) (r : List (String × Json)),
    (runBatchLoop http api_key op D idx r).map Prod.fst =
      D.foldl (fun ks d => if d ∈ ks then ks else ks ++ [d]) (r.map Prod.fst) := by
  intro D
  induction D with
  | nil => intro idx r; rfl
  | cons d ds ih =>
      intro idx r
      obtain ⟨v, hv⟩ := visitOutcome_eq_some (http idx) api_key op d hop
      simp only [runBatchLoop, List.foldl_cons]
      rw [batchStep_eq_visitOutcome, hv, ih, keys_dictInsert]

theorem dedupFirst_foldl_spec :
    ∀ (D : List String) (ks : List String), ks.Nodup →
    (D.foldl (fun ks d => if d ∈ ks then ks else ks ++ [d]) ks).Nodup ∧
    ∀ x, x ∈ D.foldl (fun ks d => if d ∈ ks then ks else ks ++ [d]) ks ↔
      x ∈ ks ∨ x ∈ D := by
  intro D
  induction D with
  | nil => intro ks h; simp [h]
  | cons d ds ih =>
      intro ks h
      simp only [List.foldl_cons]
      by_cases hd : d ∈ ks
      · obtain ⟨h1, h2⟩ := ih ks h
        rw [if_pos hd]
        refine ⟨h1, fun x => ?_⟩
        rw [h2]
        simp only [List.mem_cons]
        constructor
        · rintro (hx | hx)
          · exact Or.inl hx
          · exact Or.inr (Or.inr hx)
        · rintro (hx | rfl | hx)
          · exact Or.inl hx
          · exact Or.inl hd
          · exact Or.inr hx
      · have hks : (ks ++ [d]).Nodup := by
          rw [List.nodup_append]
          exact ⟨h, List.nodup_singleton d, by simpa using hd⟩
        obtain ⟨h1, h2⟩ := ih (ks ++ [d]) hks
        rw [if_neg hd]
        refine ⟨h1, fun x => ?_⟩
        rw [h2]
        simp only [List.mem_append, List.mem_singleton, List.mem_cons]
        tauto

theorem countAcc_foldl (R : List (String × Json)) :
    ∀ a : Nat, (∀ kv ∈ R, pyInError kv.2 ≠ none) →
    R.foldl (fun acc kv => countAcc acc kv.2) (some a) =
      some (a + R.countP (fun kv => pyInError kv.2 == some false)) := by
  induction R with
  | nil => intro a _; simp
  | cons kv R ih =>
      intro a h
      have hkv := h kv (List.mem_cons_self kv R)
      simp only [List.foldl_cons]
      cases hpy : pyInError kv.2 with
      | none => exact absurd hpy hkv
      | some b =>
          have hrest : ∀ kv' ∈ R, pyInError kv'.2 ≠ none :=
            fun kv' h' => h kv' (List.mem_cons_of_mem _ h')
          cases b with
          | true =>
              have hstep : countAcc (some a) kv.2 = some a := by
                simp [countAcc, hpy]
              rw [hstep, ih a hrest, List.countP_cons]
              simp [hpy]
          | false =>
              have hstep : countAcc (some a) kv.2 = some (a + 1) := by
                simp [countAcc, hpy]
              rw [hstep, ih (a + 1) hrest, List.countP_cons]
              simp [hpy]
              omega

theorem successfulCount_eq_countP (R : List (String × Json))
    (h : ∀ kv ∈ R, pyInError kv.2 ≠ none) :
    successfulCount R = some (R.countP (fun kv => pyInError kv.2 == some false)) := by
  unfold successfulCount
  rw [countAcc_foldl R 0 h]
  simp

theorem runBatchLoop_success_nodup (http : Nat → Request → TransportResult)
    (payload : Nat → String → Json) (api_key op : String)
    (hsucc : ∀ n d, clientCall (http n) api_key op d = some (Except.ok (payload n d))) :
    ∀ (D : List String) (idx : Nat) (r : List (String × Json)), D.Nodup →
      (∀ d ∈ D, d ∉ r.map Prod.fst) →
      runBatchLoop http api_key op D idx r =
        r ++ (List.enumFrom idx D).map (fun p => (p.2, payload p.1 p.2)) := by
  intro D
  induction D with
  | nil => intro idx r _ _; simp [runBatchLoop, List.enumFrom]
  | cons d ds ih =>
      intro idx r hnd hdisj
      have hstep : batchStep (http idx) api_key op r d = r ++ [(d, payload idx d)] := by
        unfold batchStep
        rw [hsucc idx d]
        exact dictInsert_not_mem r d _ (hdisj d (List.mem_cons_self d ds))
      have hdisj' : ∀ d' ∈ ds, d' ∉ (r ++ [(d, payload idx d)]).map Prod.fst := by
        intro d' hd'
        simp only [List.map_append, List.mem_append, List.map_cons, List.map_nil,
          List.mem_singleton]
        rintro (hmem | rfl)
        · exact hdisj d' (List.mem_cons_of_mem _ hd') hmem
        · exact (List.nodup_cons.1 hnd).1 hd'
      simp only [runBatchLoop]
      rw [hstep, ih (idx + 1) _ hnd.of_cons hdisj']
      simp [List.enumFrom]

theorem filterMap_all_some {α β : Type} (f : α → Option β)
    (hf : ∀ a, ∃ b, f a = some b) :
    ∀ l : List α, (l.filterMap f).length = l.length ∧
      ∀ i a, l.get? i = some a → (l.filterMap f).get? i = f a := by
  intro l
  induction l with
  | nil => simp
  | cons a l ih =>
      obtain ⟨b, hb⟩ := hf a
      simp only [List.filterMap_cons, hb]
      refine ⟨by simp [ih.1], fun i a' => ?_⟩
      cases i with
      | zero =>
          intro h
          simp only [List.get?] at h
          cases h
          simp [List.get?, hb]
      | succ i =>
          intro h
          simp only [List.get?] at h ⊢
          exact ih.2 i a' h

theorem runBatchLoop_values (http : Nat → Request → TransportResult)
    (api_key op : String) (P : Json → Prop)
    (hvis : ∀ n d v, visitOutcome (http n) api_key op d = some v → P v) :
    ∀ (D : List String) (idx : Nat) (r : List (String × Json)),
      (∀ kv ∈ r, P kv.2) →
      ∀ kv ∈ runBatchLoop http api_key op D idx r, P kv.2 := by
  intro D
  induction D with
  | nil => intro idx r hr kv hkv; exact hr kv hkv
  | cons d ds ih =>
      intro idx r hr kv hkv
      refine ih (idx + 1) _ ?_ kv hkv
      intro kv' hkv'
      rw [batchStep_eq_visitOutcome] at hkv'
      cases hv : visitOutcome (http idx) api_key op d with
      | none => rw [hv] at hkv'; exact hr kv' hkv'
      | some v =>
          rw [hv] at hkv'
          rcases mem_dictInsert r d v kv' hkv' with h | rfl
          · exact hr kv' h
          · exact hvis idx d v hv

/-! Claim theorems. -/

/-- C1 counterexample: with `D = ["a.com", "a.com"]` the API Client succeeds
on both invocations (HTTP 200, payload without an `error` key), yet the
displayed summary is `successful = 1, failed = 1`: `failed` is not `0`,
because `successful` counts the distinct result keys while `failed`
subtracts that from `len(domains)`.  So the claim fails for duplicate
domain lists. -/
theorem c1_duplicates_counterexample :
    clientCall (httpOk 0) "k" "WHOIS Lookup" "a.com" =
      some (Except.ok (Json.obj [("registrar", Json.str "Acme")])) ∧
    clientCall (httpOk 1) "k" "WHOIS Lookup" "a.com" =
      some (Except.ok (Json.obj [("registrar", Json.str "Acme")])) ∧
    pyInError (Json.obj [("registrar", Json.str "Acme")]) = some false ∧
    batchSummary httpOk "k" "WHOIS Lookup" ["a.com", "a.com"] = some (1, 1) :=
  ⟨rfl, rfl, rfl, rfl⟩

/-- C1 (amended): for a non-empty list of pairwise-distinct domains, if every
API Client invocation succeeds and no returned payload passes the
`"error" in r` membership test, then the summary is
`successful = len(D), failed = 0`, and every entry of the final result
mapping is a payload the client returned for that domain. -/
theorem c1_amended_all_success_distinct_domains
    (http : Nat → Request → TransportResult) (payload : Nat → String → Json)
    (api_key op : String) (D : List String) (hne : D ≠ []) (hnd : D.Nodup)
    (hsucc : ∀ n d, clientCall (http n) api_key op d = some (Except.ok (payload n d)))
    (hclean : ∀ n d, pyInError (payload n d) = some false) :
    batchSummary http api_key op D = some ((D.length : Int), 0) ∧
    ∀ kv ∈ runBatch http api_key op D, ∃ n, kv.2 = payload n kv.1 := by
  have hrb : runBatch http api_key op D =
      (List.enumFrom 0 D).map (fun p => (p.2, payload p.1 p.2)) := by
    unfold runBatch
    simpa using
      runBatchLoop_success_nodup http payload api_key op hsucc D 0 [] hnd (by simp)
  constructor
  · unfold batchSummary
    rw [hrb, successfulCount_eq_countP]
    · have hall : ((List.enumFrom 0 D).map
          (fun p => (p.2, payload p.1 p.2))).countP
            (fun kv => pyInError kv.2 == some false) =
          ((List.enumFrom 0 D).map (fun p => (p.2, payload p.1 p.2))).length :=
        List.countP_eq_length.2 (by
          intro kv hkv
          obtain ⟨p, _, rfl⟩ := List.mem_map.1 hkv
          simp [hclean p.1 p.2])
      rw [hall]
      simp
    · intro kv hkv
      obtain ⟨p, _, rfl⟩ := List.mem_map.1 hkv
      simp [hclean p.1 p.2]
  · intro kv hkv
    rw [hrb] at hkv
    obtain ⟨p, _, rfl⟩ := List.mem_map.1 hkv
    exact ⟨p.1, rfl⟩

/-- C1 (amended) witness: a concrete instance with two distinct domains and
an always-successful client. -/
theorem c1_amended_witness :
    (["a.com", "b.com"] : List String) ≠ [] ∧
    (["a.com", "b.com"] : List String).Nodup ∧
    batchSummary httpOk "k" "WHOIS Lookup" ["a.com", "b.com"] = some (2, 0) ∧
    ∀ kv ∈ runBatch httpOk "k" "WHOIS Lookup" ["a.com", "b.com"],
      ∃ n, kv.2 = (fun (_ : Nat) (_ : String) =>
        Json.obj [("registrar", Json.str "Acme")]) n kv.1 := by
  have h := c1_amended_all_success_distinct_domains httpOk
    (fun _ _ => Json.obj [("registrar", Json.str "Acme")]) "k" "WHOIS Lookup"
    ["a.com", "b.com"] (by simp) (by simp) (fun n d => rfl) (fun n d => rfl)
  exact ⟨by simp, by simp, h.1, h.2⟩

/-- C2: for a non-empty domain list and any of the three batch operations,
the loop issues exactly one client request per list element, in input
order, and whenever the summary is displayed it satisfies
`successful + failed = len(domains)`. -/
theorem c2_visits_and_summary (http : Nat → Request → TransportResult)
    (api_key op : String) (D : List String)
    (hop : op ∈ batchOps) (hne : D ≠ []) :
    (batchTrace api_key op D).length = D.length ∧
    (∀ i d, D.get? i = some d →
      (batchTrace api_key op D).get? i = requestOf api_key op d) ∧
    (∀ s f, batchSummary http api_key op D = some (s, f) →
      s + f = (D.length : Int)) := by
  have hfs := filterMap_all_some (fun d => requestOf api_key op d)
    (fun d => requestOf_eq_some api_key op d hop) D
  refine ⟨hfs.1, hfs.2, ?_⟩
  intro s f hsf
  unfold batchSummary at hsf
  cases hsc : successfulCount (runBatch http api_key op D) with
  | none => rw [hsc] at hsf; simp at hsf
  | some s0 =>
      rw [hsc] at hsf
      have h1 : (s0 : Int) = s := congrArg Prod.fst (Option.some.inj hsf)
      have h2 : (D.length : Int) - (s0 : Int) = f :=
        congrArg Prod.snd (Option.some.inj hsf)
      omega

/-- C2 witness: one domain, WHOIS operation, always-successful transport. -/
theorem c2_witness :
    ("WHOIS Lookup" ∈ batchOps) ∧ (["a.com"] : List String) ≠ [] ∧
    (batchTrace "k" "WHOIS Lookup" ["a.com"]).length = 1 ∧
    (∀ i d, (["a.com"] : List String).get? i = some d →
      (batchTrace "k" "WHOIS Lookup" ["a.com"]).get? i = requestOf "k" "WHOIS Lookup" d) ∧
    (∀ s f, batchSummary httpOk "k" "WHOIS Lookup" ["a.com"] = some (s, f) →
      s + f = ((["a.com"] : List String).length : Int)) := by
  have h := c2_visits_and_summary httpOk "k" "WHOIS Lookup" ["a.com"]
    (by simp [batchOps]) (by simp)
  exact ⟨by simp [batchOps], by simp, h.1, h.2.1, h.2.2⟩

/-- C3 counterexample: on a 304 response (a non-2xx status),
`raise_for_status` does not raise, so `whois_lookup` returns the parsed
body instead of failing with an `HttpError` carrying 304: the claim's
"whenever the response status is not 2xx (including 3xx)" direction is
false. -/
theorem c3_status_304_counterexample :
    http304 (whoisRequest "a.com" "k") =
      TransportResult.resp 304 "redirect" (BodyParse.ok Json.null) ∧
    whois_lookup http304 "a.com" "k" = Except.ok Json.null ∧
    whois_lookup http304 "a.com" "k" ≠
      Except.error (PyErr.httpError 304 "redirect") := by
  refine ⟨rfl, rfl, fun h => ?_⟩
  have h2 : Except.ok Json.null =
      (Except.error (PyErr.httpError 304 "redirect") : Except PyErr Json) := h
  exact Except.noConfusion h2

/-- C3 (amended): for each single-lookup operation, when the transport
returns a response with a parsable JSON body, the call fails with
`HttpError` carrying the numeric status code and the raw body text exactly
when the status is in `[400, 600)` (4xx or 5xx), and returns the parsed
body otherwise — in particular on every 2xx and also on 3xx statuses. -/
theorem c3_amended_http_error_on_4xx_5xx (http : Request → TransportResult)
    (domain api_key : String) (rt : Option String) (s : Nat) (t : String)
    (j : Json) :
    (http (whoisRequest domain api_key) = .resp s t (.ok j) →
      whois_lookup http domain api_key =
        if 400 ≤ s ∧ s < 600 then .error (.httpError s t) else .ok j) ∧
    (http (nslookupRequest domain api_key rt) = .resp s t (.ok j) →
      nslookup http domain api_key rt =
        if 400 ≤ s ∧ s < 600 then .error (.httpError s t) else .ok j) ∧
    (http (sslRequest domain api_key) = .resp s t (.ok j) →
      ssl_cert_check http domain api_key =
        if 400 ≤ s ∧ s < 600 then .error (.httpError s t) else .ok j) := by
  refine ⟨?_, ?_, ?_⟩ <;>
    · intro h
      simp only [whois_lookup, nslookup, ssl_cert_check, httpGetJson]
      rw [h]

/-- C3 (amended) witness: a 404 response makes `whois_lookup` fail with
`HttpError 404` and the body text. -/
theorem c3_amended_witness :
    http404 (whoisRequest "a.com" "k") =
      TransportResult.resp 404 "not found" (BodyParse.ok Json.null) ∧
    whois_lookup http404 "a.com" "k" =
      Except.error (PyErr.httpError 404 "not found") := by
  refine ⟨rfl, ?_⟩
  have h := (c3_amended_http_error_on_4xx_5xx http404 "a.com" "k" none 404
    "not found" Json.null).1 rfl
  rw [if_pos (by omega : 400 ≤ 404 ∧ 404 < 600)] at h
  exact h

/-- C4: on input `["a.com", "b.com", "a.com"]` the final result mapping has
exactly the two keys `a.com` and `b.com` (in first-occurrence order), the
value stored for `a.com` is the outcome of the third visit (the later
occurrence overwrote the first), the value for `b.com` is the outcome of
the second visit, and all three list elements are visited (three requests
are issued). -/
theorem c4_duplicate_overwrite (http : Nat → Request → TransportResult)
    (api_key op : String) (hop : op ∈ batchOps) :
    (runBatch http api_key op ["a.com", "b.com", "a.com"]).map Prod.fst =
      ["a.com", "b.com"] ∧
    (runBatch http api_key op ["a.com", "b.com", "a.com"]).lookup "a.com" =
      visitOutcome (http 2) api_key op "a.com" ∧
    (runBatch http api_key op ["a.com", "b.com", "a.com"]).lookup "b.com" =
      visitOutcome (http 1) api_key op "b.com" ∧
    (batchTrace api_key op ["a.com", "b.com", "a.com"]).length = 3 := by
  obtain ⟨v0, hv0⟩ := visitOutcome_eq_some (http 0) api_key op "a.com" hop
  obtain ⟨v1, hv1⟩ := visitOutcome_eq_some (http 1) api_key op "b.com" hop
  obtain ⟨v2, hv2⟩ := visitOutcome_eq_some (http 2) api_key op "a.com" hop
  have d1 : dictInsert [] "a.com" v0 = [("a.com", v0)] :=
    dictInsert_not_mem _ _ _ (by simp)
  have d2 : dictInsert [("a.com", v0)] "b.com" v1 =
      [("a.com", v0), ("b.com", v1)] :=
    dictInsert_not_mem _ _ _ (by simp)
  have d3 : dictInsert [("a.com", v0), ("b.com", v1)] "a.com" v2 =
      [("a.com", v2), ("b.com", v1)] := by
    unfold dictInsert
    rw [if_pos (by simp)]
    simp
  have hrb : runBatch http api_key op ["a.com", "b.com", "a.com"] =
      [("a.com", v2), ("b.com", v1)] := by
    unfold runBatch
    simp only [runBatchLoop, batchStep_eq_visitOutcome, hv0, hv1, hv2]
    rw [d1, d2, d3]
  obtain ⟨r0, hr0⟩ := requestOf_eq_some api_key op "a.com" hop
  obtain ⟨r1, hr1⟩ := requestOf_eq_some api_key op "b.com" hop
  refine ⟨by rw [hrb]; simp, ?_, ?_, ?_⟩
  · rw [hrb, hv2]
    simp [List.lookup]
  · rw [hrb, hv1]
    simp [List.lookup]
  · simp [batchTrace, List.filterMap_cons, hr0, hr1]

/-- C4 witness: the duplicate-domain scenario run with the DNS operation on
an always-successful transport. -/
theorem c4_witness :
    ("DNS Lookup" ∈ batchOps) ∧
    (runBatch httpOk "k" "DNS Lookup" ["a.com", "b.com", "a.com"]).map Prod.fst =
      ["a.com", "b.com"] ∧
    (runBatch httpOk "k" "DNS Lookup" ["a.com", "b.com", "a.com"]).lookup "a.com" =
      visitOutcome (httpOk 2) "k" "DNS Lookup" "a.com" ∧
    (runBatch httpOk "k" "DNS Lookup" ["a.com", "b.com", "a.com"]).lookup "b.com" =
      visitOutcome (httpOk 1) "k" "DNS Lookup" "b.com" ∧
    (batchTrace "k" "DNS Lookup" ["a.com", "b.com", "a.com"]).length = 3 := by
  have h := c4_duplicate_overwrite httpOk "k" "DNS Lookup" (by simp [batchOps])
  exact ⟨by simp [batchOps], h.1, h.2.1, h.2.2.1, h.2.2.2⟩

/-- C5: if the client call at some visit raises an exception, the loop body
catches it, records `errorValue` of the exception under that domain, and
the loop simply continues with the remaining domains; an `HTTPError` is
recorded with its numeric status code and response body text, any other
exception with its stringified message.  The loop itself is a total
function, so no exception crosses the batch boundary. -/
theorem c5_errors_recorded_loop_continues (http : Nat → Request → TransportResult)
    (api_key op : String) (D1 D2 : List String) (d : String) (e : PyErr)
    (herr : clientCall (http D1.length) api_key op d = some (Except.error e)) :
    runBatch http api_key op (D1 ++ d :: D2) =
      runBatchLoop http api_key op D2 (D1.length + 1)
        (dictInsert (runBatch http api_key op D1) d (errorValue e)) ∧
    (∀ s t, errorValue (PyErr.httpError s t) =
        Json.obj [("error", Json.str ("HTTP " ++ toString s ++ ": " ++ t))]) ∧
    (∀ m, errorValue (PyErr.other m) = Json.obj [("error", Json.str m)]) := by
  refine ⟨?_, fun s t => rfl, fun m => rfl⟩
  unfold runBatch
  rw [runBatchLoop_append]
  simp only [Nat.zero_add, runBatchLoop]
  have hstep : batchStep (http D1.length) api_key op
      (runBatchLoop http api_key op D1 0 []) d =
      dictInsert (runBatchLoop http api_key op D1 0 []) d (errorValue e) := by
    unfold batchStep
    rw [herr]
  rw [hstep]

/-- C5 witness: first visit fails with HTTP 503, the loop records the error
record for `a.com` and continues with `b.com`. -/
theorem c5_witness :
    clientCall (http503 0) "k" "WHOIS Lookup" "a.com" =
      some (Except.error (PyErr.httpError 503 "unavailable")) ∧
    runBatch http503 "k" "WHOIS Lookup" ["a.com", "b.com"] =
      runBatchLoop http503 "k" "WHOIS Lookup" ["b.com"] 1
        (dictInsert (runBatch http503 "k" "WHOIS Lookup" []) "a.com"
          (errorValue (PyErr.httpError 503 "unavailable"))) ∧
    (∀ s t, errorValue (PyErr.httpError s t) =
        Json.obj [("error", Json.str ("HTTP " ++ toString s ++ ": " ++ t))]) ∧
    (∀ m, errorValue (PyErr.other m) = Json.obj [("error", Json.str m)]) := by
  have h := c5_errors_recorded_loop_continues http503 "k" "WHOIS Lookup"
    [] ["b.com"] "a.com" (PyErr.httpError 503 "unavailable") rfl
  exact ⟨rfl, h.1, h.2.1, h.2.2⟩

/-- C6: for a specified (non-empty) record type, the DNS request carries the
query parameter `type=<recordType>` exactly when the record type is not the
`All Records` sentinel; no other `type` value ever appears; the sentinel
and the absent record type both produce a request whose only query
parameter is `domain`; `MX` yields exactly `domain` plus `type=MX`. -/
theorem c6_nslookup_type_param (domain api_key rt : String) (hrt : rt ≠ "") :
    ((("type", rt) ∈ (nslookupRequest domain api_key (some rt)).params) ↔
      rt ≠ "All Records") ∧
    (∀ v, ("type", v) ∈ (nslookupRequest domain api_key (some rt)).params →
      v = rt) ∧
    (nslookupRequest domain api_key (some "All Records")).params =
      [("domain", domain)] ∧
    (nslookupRequest domain api_key (some "MX")).params =
      [("domain", domain), ("type", "MX")] ∧
    (nslookupRequest domain api_key none).params = [("domain", domain)] := by
  refine ⟨?_, ?_, rfl, rfl, rfl⟩
  · by_cases hAll : rt = "All Records"
    · subst hAll
      simp [nslookupRequest]
    · simp [nslookupRequest, hrt, hAll]
  · intro v hv
    by_cases hAll : rt = "All Records"
    · subst hAll
      simp [nslookupRequest] at hv
    · simp [nslookupRequest, hrt, hAll] at hv
      exact hv

/-- C6 witness: the `MX` record type instance. -/
theorem c6_witness :
    ("MX" : String) ≠ "" ∧
    ((("type", "MX") ∈ (nslookupRequest "a.com" "k" (some "MX")).params) ↔
      ("MX" : String) ≠ "All Records") ∧
    (∀ v, ("type", v) ∈ (nslookupRequest "a.com" "k" (some "MX")).params →
      v = "MX") ∧
    (nslookupRequest "a.com" "k" (some "All Records")).params =
      [("domain", "a.com")] ∧
    (nslookupRequest "a.com" "k" (some "MX")).params =
      [("domain", "a.com"), ("type", "MX")] ∧
    (nslookupRequest "a.com" "k" none).params = [("domain", "a.com")] :=
  ⟨by decide, c6_nslookup_type_param "a.com" "k" "MX" (by decide)⟩

/-- C7: when every client invocation fails with `HTTPError(503, "unavailable")`,
the displayed summary is `successful = 0, failed = len(domains)`, and every
recorded outcome is the failure record carrying the 503 status code and the
body text. -/
theorem c7_all_503_failures (http : Nat → Request → TransportResult)
    (api_key op : String) (D : List String)
    (hfail : ∀ n d, clientCall (http n) api_key op d =
      some (Except.error (PyErr.httpError 503 "unavailable"))) :
    batchSummary http api_key op D = some (0, (D.length : Int)) ∧
    ∀ kv ∈ runBatch http api_key op D,
      kv.2 = Json.obj [("error", Json.str "HTTP 503: unavailable")] := by
  have herrv : errorValue (PyErr.httpError 503 "unavailable") =
      Json.obj [("error", Json.str "HTTP 503: unavailable")] := by
    have hs : ("HTTP " ++ toString (503 : Nat) ++ ": " ++ "unavailable") =
        "HTTP 503: unavailable" := by decide
    simp [errorValue, hs]
  have hvals : ∀ kv ∈ runBatch http api_key op D,
      kv.2 = Json.obj [("error", Json.str "HTTP 503: unavailable")] := by
    unfold runBatch
    refine runBatchLoop_values http api_key op
      (fun v => v = Json.obj [("error", Json.str "HTTP 503: unavailable")])
      ?_ D 0 [] (by simp)
    intro n d v hv
    unfold visitOutcome at hv
    rw [hfail n d] at hv
    rw [← Option.some.inj hv, herrv]
  refine ⟨?_, hvals⟩
  unfold batchSummary
  rw [successfulCount_eq_countP]
  · rw [List.countP_eq_zero.2 ?_]
    · simp
    · intro kv hkv
      rw [hvals kv hkv]
      simp [pyInError]
  · intro kv hkv
    rw [hvals kv hkv]
    simp [pyInError]

/-- C7 witness: one domain on the constant-503 transport. -/
theorem c7_witness :
    (∀ n d, clientCall (http503 n) "k" "WHOIS Lookup" d =
      some (Except.error (PyErr.httpError 503 "unavailable"))) ∧
    batchSummary http503 "k" "WHOIS Lookup" ["a.com"] = some (0, 1) ∧
    ∀ kv ∈ runBatch http503 "k" "WHOIS Lookup" ["a.com"],
      kv.2 = Json.obj [("error", Json.str "HTTP 503: unavailable")] := by
  have h := c7_all_503_failures http503 "k" "WHOIS Lookup" ["a.com"]
    (fun n d => rfl)
  exact ⟨fun n d => rfl, h.1, h.2⟩

/-- C8: after the batch completes, the result mapping has exactly one entry
per domain string of the input list, and its keys appear in the order the
domains were first processed (first-occurrence order of the input). -/
theorem c8_result_keys (http : Nat → Request → TransportResult)
    (api_key op : String) (D : List String) (hop : op ∈ batchOps) :
    (runBatch http api_key op D).map Prod.fst = dedupFirst D ∧
    ∀ d ∈ D, ((runBatch http api_key op D).map Prod.fst).count d = 1 := by
  have hk : (runBatch http api_key op D).map Prod.fst = dedupFirst D := by
    unfold runBatch dedupFirst
    simpa using keys_runBatchLoop http api_key op hop D 0 []
  refine ⟨hk, fun d hd => ?_⟩
  rw [hk]
  obtain ⟨hnd, hmem⟩ := dedupFirst_foldl_spec D [] List.nodup_nil
  exact List.count_eq_one_of_mem hnd ((hmem d).2 (Or.inr hd))

/-- C8 witness: the SSL operation over a list with a duplicate. -/
theorem c8_witness :
    ("SSL Certificate Check" ∈ batchOps) ∧
    (runBatch httpOk "k" "SSL Certificate Check" ["a.com", "b.com", "a.com"]).map
      Prod.fst = dedupFirst ["a.com", "b.com", "a.com"] ∧
    ∀ d ∈ (["a.com", "b.com", "a.com"] : List String),
      ((runBatch httpOk "k" "SSL Certificate Check"
        ["a.com", "b.com", "a.com"]).map Prod.fst).count d = 1 := by
  have h := c8_result_keys httpOk "k" "SSL Certificate Check"
    ["a.com", "b.com", "a.com"] (by simp [batchOps])
  exact ⟨by simp [batchOps], h.1, h.2⟩

/-- C9: when every client call succeeds, `successful` still counts exactly
the entries whose payload passes the `"error" not in r` test: a successful
lookup whose returned payload carries a top-level `error` key (or the list
element `"error"`) is counted as a failure in the summary. -/
theorem c9_error_payload_counted_failed (http : Nat → Request → TransportResult)
    (payload : Nat → String → Json) (api_key op : String) (D : List String)
    (hnd : D.Nodup)
    (hsucc : ∀ n d, clientCall (http n) api_key op d =
      some (Except.ok (payload n d)))
    (hdef : ∀ n d, pyInError (payload n d) ≠ none) :
    batchSummary http api_key op D =
      some ((((List.enumFrom 0 D).countP
          (fun p => pyInError (payload p.1 p.2) == some false)) : Int),
        (D.length : Int) -
          (((List.enumFrom 0 D).countP
            (fun p => pyInError (payload p.1 p.2) == some false)) : Int)) := by
  have hrb : runBatch http api_key op D =
      (List.enumFrom 0 D).map (fun p => (p.2, payload p.1 p.2)) := by
    unfold runBatch
    simpa using
      runBatchLoop_success_nodup http payload api_key op hsucc D 0 [] hnd (by simp)
  unfold batchSummary
  rw [hrb, successfulCount_eq_countP]
  · rw [List.countP_map]
    rfl
  · intro kv hkv
    obtain ⟨p, _, rfl⟩ := List.mem_map.1 hkv
    exact hdef p.1 p.2

/-- C9 witness: a single domain whose lookup succeeds with payload
`{"error": "soft fail"}`; the summary reports 0 successful, 1 failed. -/
theorem c9_witness :
    (["a.com"] : List String).Nodup ∧
    (∀ n d, clientCall (httpSoftFail n) "k" "WHOIS Lookup" d =
      some (Except.ok (Json.obj [("error", Json.str "soft fail")]))) ∧
    pyInError (Json.obj [("error", Json.str "soft fail")]) = some true ∧
    batchSummary httpSoftFail "k" "WHOIS Lookup" ["a.com"] = some (0, 1) := by
  have h := c9_error_payload_counted_failed httpSoftFail
    (fun _ _ => Json.obj [("error", Json.str "soft fail")]) "k" "WHOIS Lookup"
    ["a.com"] (by simp) (fun n d => rfl) (fun n d h => Option.noConfusion h)
  exact ⟨by simp, fun n d => rfl, rfl, h⟩

/-- C10: in batch mode the DNS operation calls `nslookup` without a record
type, so every batch DNS request has `domain` as its only query parameter
and never carries a `type` parameter. -/
theorem c10_batch_dns_no_type_param (api_key domain : String) :
    requestOf api_key "DNS Lookup" domain =
      some (nslookupRequest domain api_key none) ∧
    (nslookupRequest domain api_key none).params = [("domain", domain)] ∧
    ∀ (D : List String) (req : Request),
      req ∈ batchTrace api_key "DNS Lookup" D → ∀ p ∈ req.params, p.1 ≠ "type" := by
  refine ⟨by simp [requestOf], rfl, ?_⟩
  intro D req hreq p hp
  unfold batchTrace at hreq
  obtain ⟨d, _, hfd⟩ := List.mem_filterMap.1 hreq
  rw [show requestOf api_key "DNS Lookup" d =
    some (nslookupRequest d api_key none) from by simp [requestOf]] at hfd
  cases Option.some.inj hfd
  simp [nslookupRequest] at hp
  rw [hp]
  simp

/-- C10 witness: the single-element batch issues one DNS request and it has
no `type` parameter. -/
theorem c10_witness :
    requestOf "k" "DNS Lookup" "a.com" =
      some (nslookupRequest "a.com" "k" none) ∧
    (nslookupRequest "a.com" "k" none).params = [("domain", "a.com")] ∧
    ∀ p ∈ (nslookupRequest "a.com" "k" none).params, p.1 ≠ "type" := by
  have h := c10_batch_dns_no_type_param "k" "a.com"
  exact ⟨h.1, h.2.1, h.2.2 ["a.com"] _ (by simp [batchTrace, requestOf])⟩

end WhoisApp
